import Mathlib

/-!
Verification of the billing-enablement script (`billing-enablement.py`).

The script's gateway interactions (`google.cloud.billing_v1` client calls)
are modelled as explicit inputs: each gateway call's result is a value of an
inductive type, and functions that make several calls receive a `Gateway`
record mapping call indices to results.  The Python functions are embedded
as pure Lean functions over these inputs; where the Python function makes
effectful calls, the embedding also returns the trace of gateway calls
performed, so that claims counting calls can be stated.
-/

namespace BillingEnablement

/-- A billing account as returned by the gateway
(`billing_v1` account object: `name`, `display_name`, `open`). -/
structure BillingAccount where
  name : String
  display_name : String
  «open» : Bool
deriving DecidableEq, Repr

/-- The closed outcome set of `get_billing_accounts`: the Python function
returns either the account list, or one of the status strings
`"API_DISABLED_OR_NO_PERMISSION"`, `"PERMISSION_DENIED"`,
`"UNEXPECTED_ERROR"`. -/
inductive ResolutionOutcome where
  | Accounts (accounts : List BillingAccount)
  | ApiDisabledOrNoPermission
  | PermissionDenied
  | UnexpectedError
deriving DecidableEq, Repr

/-- Result of the gateway's `list_billing_accounts` call:
success with a list, a `PermissionDenied` exception carrying a message,
or any other exception. -/
inductive ListBillingAccountsResult where
  | ok (accounts : List BillingAccount)
  | permissionDenied (message : String)
  | otherError (message : String)
deriving DecidableEq, Repr

/-- Embedding of `get_billing_accounts` (billing-enablement.py lines 45-68),
as a function of the gateway call's result.  The Python code lowercases the
exception message and tests `"api has not been used" in error_message or
"service is disabled" in error_message` (Python `in` on strings is substring
containment, embedded as `List.IsInfix` on the character lists). -/
def get_billing_accounts (r : ListBillingAccountsResult) : ResolutionOutcome :=
  match r with
  | .ok accounts => .Accounts accounts
  | .permissionDenied message =>
      let error_message := message.toList.map Char.toLower
      if "api has not been used".toList <:+: error_message ∨
         "service is disabled".toList <:+: error_message then
        .ApiDisabledOrNoPermission
      else
        .PermissionDenied
  | .otherError _ => .UnexpectedError

/-- The orchestrator's test `accounts_result != "API_DISABLED_OR_NO_PERMISSION"`
(a list never equals that string, so the test is exactly "is the outcome the
ApiDisabledOrNoPermission token"). -/
def isApiDisabled : ResolutionOutcome → Bool
  | .ApiDisabledOrNoPermission => true
  | _ => false

/-- Embedding of the orchestrator's enable-and-retry loop body
(billing-enablement.py lines 136-145), after `enable_billing_api`
succeeded.  `results i` is the outcome of the `get_billing_accounts` call on
attempt `i` (0-indexed); `wait` is the current `wait_seconds` value (a
rational, since Python's `wait_seconds *= 1.5` leaves integer arithmetic).
Returns the list of waits slept (one preceding each attempt made, in order)
and the final `accounts_result`. -/
def enableRetryGo (results : ℕ → ResolutionOutcome) (i fuel : ℕ) (wait : ℚ)
    (waits : List ℚ) : List ℚ × ResolutionOutcome :=
  match fuel with
  | 0 => (waits, .ApiDisabledOrNoPermission)
  | fuel' + 1 =>
      let waits' := waits ++ [wait]
      let r := results i
      if isApiDisabled r then
        enableRetryGo results (i + 1) fuel' (wait * (3 / 2)) waits'
      else
        (waits', r)

/-- The enable-and-retry loop with the script's constants
`max_retries = 5`, `wait_seconds = 15`. -/
def enableRetry (results : ℕ → ResolutionOutcome) : List ℚ × ResolutionOutcome :=
  enableRetryGo results 0 5 15 []

/-- The project's current billing link as returned by
`get_project_billing_info`: `billing_account_name`, `billing_enabled`. -/
structure LinkState where
  billing_account_name : String
  billing_enabled : Bool
deriving DecidableEq, Repr

/-- Result of one `get_project_billing_info` call: success, a `NotFound`
exception, or any other exception (with message). -/
inductive GetInfoResult where
  | ok (info : LinkState)
  | notFound
  | err (message : String)
deriving DecidableEq, Repr

/-- Result of the `update_project_billing_info` call: success, a
`PermissionDenied` exception, or any other exception. -/
inductive UpdateResult where
  | ok
  | permissionDenied (message : String)
  | err (message : String)
deriving DecidableEq, Repr

/-- The gateway's behaviour during one `link_project_to_billing` run:
`getInfo n` is the result of the n-th `get_project_billing_info` call made
by the function (0-indexed: call 0 is the initial status check, calls 1..
are the verification polls), and `updateResult` is the result of the single
`update_project_billing_info` call, if made. -/
structure Gateway where
  getInfo : ℕ → GetInfoResult
  updateResult : UpdateResult

/-- A gateway call, for recording the trace of calls a run performs. -/
inductive GatewayCall where
  | getInfo
  | updateInfo
deriving DecidableEq, Repr

/-- The distinguishable return points of `link_project_to_billing`
(the Python function returns `None` everywhere; the spec names its five
exit points, four of which are outcomes — the fifth is an uncaught
exception, see `LinkResult`). -/
inductive LinkOutcome where
  | AlreadyLinked
  | Linked
  | LinkRequestFailed
  | VerificationTimedOut
deriving DecidableEq, Repr

/-- How a `link_project_to_billing` run ends: at one of its return points,
or by an exception propagating out of the function (the initial
`get_project_billing_info` is guarded only by `except exceptions.NotFound`,
so any other exception there escapes). -/
inductive LinkResult where
  | outcome (o : LinkOutcome)
  | escaped (message : String)
deriving DecidableEq, Repr

/-- Embedding of the verification loop of `link_project_to_billing`
(billing-enablement.py lines 106-119): up to `fuel` polls (the script uses
`max_retries = 6`), reading call `idx`, `idx + 1`, ... of the gateway.
Success condition: the fetched info's `billing_account_name` equals the
target and `billing_enabled` is true — return (Linked) immediately.  A
non-matching fetch, a `NotFound`, or any other exception (both caught by
the loop's `except Exception`) consumes the attempt and the loop continues.
Falling off the loop returns the timed-out warning. -/
def verifyLoop (gw : Gateway) (billing_account_name : String) (idx fuel : ℕ)
    (calls : List GatewayCall) : LinkResult × List GatewayCall :=
  match fuel with
  | 0 => (.outcome .VerificationTimedOut, calls)
  | fuel' + 1 =>
      let calls' := calls ++ [GatewayCall.getInfo]
      match gw.getInfo idx with
      | .ok verified_info =>
          if verified_info.billing_account_name == billing_account_name &&
             verified_info.billing_enabled then
            (.outcome .Linked, calls')
          else
            verifyLoop gw billing_account_name (idx + 1) fuel' calls'
      | _ => verifyLoop gw billing_account_name (idx + 1) fuel' calls'

/-- Whether the `idx`-th `get_project_billing_info` result satisfies the
verification success condition for the given target account name. -/
def pollSucceeds (gw : Gateway) (billing_account_name : String) (idx : ℕ) : Bool :=
  match gw.getInfo idx with
  | .ok verified_info =>
      verified_info.billing_account_name == billing_account_name &&
      verified_info.billing_enabled
  | _ => false

/-- Embedding of `link_project_to_billing` (billing-enablement.py lines
72-119), as a function of the gateway's behaviour.  Returns how the run
ends together with the trace of gateway calls it performed.
Control flow mirrors the source:
- empty `target_project_id` returns immediately (the "cannot link" exit,
  `LinkRequestFailed` per the spec's naming), no gateway call;
- the initial `get_project_billing_info` (call 0): on success, if the
  current `billing_account_name` equals the target's, return (AlreadyLinked);
  `NotFound` is caught and treated as unlinked; any other exception is NOT
  caught and escapes the function;
- `update_project_billing_info`: `PermissionDenied` or any other exception
  returns (LinkRequestFailed);
- otherwise the verification loop runs with `max_retries = 6` over gateway
  calls 1..6. -/
def link_project_to_billing (gw : Gateway) (target_project_id : String)
    (billing_account_info : BillingAccount) : LinkResult × List GatewayCall :=
  if target_project_id = "" then
    (.outcome .LinkRequestFailed, [])
  else
    let billing_account_name := billing_account_info.name
    let proceed : LinkResult × List GatewayCall :=
      match gw.updateResult with
      | .ok =>
          verifyLoop gw billing_account_name 1 6
            [GatewayCall.getInfo, GatewayCall.updateInfo]
      | .permissionDenied _ =>
          (.outcome .LinkRequestFailed, [GatewayCall.getInfo, GatewayCall.updateInfo])
      | .err _ =>
          (.outcome .LinkRequestFailed, [GatewayCall.getInfo, GatewayCall.updateInfo])
    match gw.getInfo 0 with
    | .ok current_billing_info =>
        if current_billing_info.billing_account_name == billing_account_name then
          (.outcome .AlreadyLinked, [GatewayCall.getInfo])
        else
          proceed
    | .notFound => proceed
    | .err message => (.escaped message, [GatewayCall.getInfo])

/-- The terminal states of the orchestrator's account-selection step
(billing-enablement.py lines 147-157). -/
inductive SelectOutcome where
  | noAccountsFound
  | noOpenAccounts
  | selected (target_account : BillingAccount)
deriving DecidableEq, Repr

/-- Embedding of the orchestrator's `SelectAccount` step: given the
resolved list, `if not accounts_result:` reports no accounts; otherwise
filter `[acc for acc in accounts_result if acc.open]`; `if not
open_accounts:` reports none open; otherwise the target is
`open_accounts[0]`. -/
def selectAccount (accounts_result : List BillingAccount) : SelectOutcome :=
  if accounts_result = [] then
    .noAccountsFound
  else
    match accounts_result.filter (fun acc => acc.«open») with
    | [] => .noOpenAccounts
    | target_account :: _ => .selected target_account

/-- Result of the `gcloud services enable` subprocess run in
`enable_billing_api`: success, the `gcloud` binary missing
(`FileNotFoundError`), or a non-zero exit (`CalledProcessError`). -/
inductive EnableApiResult where
  | ok
  | gcloudNotFound
  | calledProcessError (stderr : String)
deriving DecidableEq, Repr

/-- Embedding of `enable_billing_api` (billing-enablement.py lines 26-41):
returns `true` exactly when the enable request was submitted successfully;
both failure modes are caught and reported as `false`. -/
def enable_billing_api (r : EnableApiResult) : Bool :=
  match r with
  | .ok => true
  | .gcloudNotFound => false
  | .calledProcessError _ => false

/-- Two consecutive invocations of `link_project_to_billing` against the
same gateway behaviour.  This models back-to-back runs faithfully whenever
the first run issues no update request: nothing then mutates the remote
link state in between, so the second run sees the same gateway. -/
def link_twice (gw : Gateway) (target_project_id : String)
    (billing_account_info : BillingAccount) :
    (LinkResult × List GatewayCall) × (LinkResult × List GatewayCall) :=
  (link_project_to_billing gw target_project_id billing_account_info,
   link_project_to_billing gw target_project_id billing_account_info)

/-- Concrete account used by the witness runs. -/
def acctX : BillingAccount :=
  { name := "billingAccounts/0A0A0A", display_name := "My Account", «open» := true }

/-- Gateway whose initial fetch reports the project already linked to the
target account, with billing currently disabled. -/
def gwAlready : Gateway :=
  { getInfo := fun _ => .ok { billing_account_name := "billingAccounts/0A0A0A",
                              billing_enabled := false }
    updateResult := .ok }

/-- Gateway where the project is unlinked, the update succeeds, the first
two verification polls miss (one stale read, one transient error) and the
third matches. -/
def gwThird : Gateway :=
  { getInfo := fun i =>
      if i = 0 then .notFound
      else if i = 1 then .ok { billing_account_name := "", billing_enabled := false }
      else if i = 2 then .err "transient"
      else .ok { billing_account_name := "billingAccounts/0A0A0A", billing_enabled := true }
    updateResult := .ok }

/-- Gateway where the project is unlinked, the update succeeds, and every
verification poll fails with a transient error. -/
def gwAllErr : Gateway :=
  { getInfo := fun i => if i = 0 then .notFound else .err "transient"
    updateResult := .ok }

/-- Gateway whose very first `get_project_billing_info` call raises an
exception other than `NotFound`. -/
def gwFetchErr : Gateway :=
  { getInfo := fun _ => .err "boom"
    updateResult := .ok }

section Lemmas

variable (gw : Gateway)

/-- Calls already recorded stay in the trace through the verification loop. -/
theorem verifyLoop_mem_calls (name : String) (c : GatewayCall) :
    ∀ (fuel idx : ℕ) (calls : List GatewayCall), c ∈ calls →
      c ∈ (verifyLoop gw name idx fuel calls).2 := by
  intro fuel
  induction fuel with
  | zero => intro idx calls h; simpa [verifyLoop] using h
  | succ fuel ih =>
      intro idx calls h
      have h' : c ∈ calls ++ [GatewayCall.getInfo] := by
        simp [List.mem_append]; exact Or.inl h
      simp only [verifyLoop]
      cases hg : gw.getInfo idx with
      | ok info =>
          by_cases hc : (info.billing_account_name == name && info.billing_enabled) = true
          · simpa [hc] using h'
          · simp only [hc, if_neg]
            simpa using ih (idx + 1) (calls ++ [GatewayCall.getInfo]) h'
      | notFound => exact ih (idx + 1) _ h'
      | err m => exact ih (idx + 1) _ h'

/-- The verification loop always ends at one of the function's return
points (never by an exception). -/
theorem verifyLoop_returns_outcome (name : String) :
    ∀ (fuel idx : ℕ) (calls : List GatewayCall),
      ∃ o, (verifyLoop gw name idx fuel calls).1 = .outcome o := by
  intro fuel
  induction fuel with
  | zero => intro idx calls; exact ⟨.VerificationTimedOut, rfl⟩
  | succ fuel ih =>
      intro idx calls
      simp only [verifyLoop]
      cases hg : gw.getInfo idx with
      | ok info =>
          by_cases hc : (info.billing_account_name == name && info.billing_enabled) = true
          · exact ⟨.Linked, by simp [hc]⟩
          · simpa [hc] using ih (idx + 1) (calls ++ [GatewayCall.getInfo])
      | notFound => exact ih (idx + 1) _
      | err m => exact ih (idx + 1) _

/-- The verification loop records at most `fuel` additional polls. -/
theorem verifyLoop_count_getInfo (name : String) :
    ∀ (fuel idx : ℕ) (calls : List GatewayCall),
      ((verifyLoop gw name idx fuel calls).2.count GatewayCall.getInfo) ≤
        calls.count GatewayCall.getInfo + fuel := by
  intro fuel
  induction fuel with
  | zero => intro idx calls; simp [verifyLoop]
  | succ fuel ih =>
      intro idx calls
      have hcnt : (calls ++ [GatewayCall.getInfo]).count GatewayCall.getInfo =
          calls.count GatewayCall.getInfo + 1 := by
        simp [List.count_append]
      simp only [verifyLoop]
      cases hg : gw.getInfo idx with
      | ok info =>
          by_cases hc : (info.billing_account_name == name && info.billing_enabled) = true
          · simp [hc, hcnt]
          · simp only [hc, if_neg]
            have := ih (idx + 1) (calls ++ [GatewayCall.getInfo])
            simp only [hcnt] at this
            simpa using this.trans (by omega)
      | notFound =>
          have := ih (idx + 1) (calls ++ [GatewayCall.getInfo])
          simp only [hcnt] at this
          exact this.trans (by omega)
      | err m =>
          have := ih (idx + 1) (calls ++ [GatewayCall.getInfo])
          simp only [hcnt] at this
          exact this.trans (by omega)

/-- If no poll in the window succeeds, the loop exhausts its budget,
records exactly `fuel` polls, and returns the timed-out warning. -/
theorem verifyLoop_timeout (name : String) :
    ∀ (fuel idx : ℕ) (calls : List GatewayCall),
      (∀ j, j < fuel → pollSucceeds gw name (idx + j) = false) →
      verifyLoop gw name idx fuel calls =
        (.outcome .VerificationTimedOut, calls ++ List.replicate fuel GatewayCall.getInfo) := by
  intro fuel
  induction fuel with
  | zero => intro idx calls _; simp [verifyLoop]
  | succ fuel ih =>
      intro idx calls h
      have h0 : pollSucceeds gw name idx = false := by simpa using h 0 (Nat.succ_pos _)
      have hrest : ∀ j, j < fuel → pollSucceeds gw name (idx + 1 + j) = false := by
        intro j hj
        have := h (j + 1) (by omega)
        simpa [Nat.add_assoc, Nat.add_comm 1 j] using this
      have hrepl : calls ++ [GatewayCall.getInfo] ++ List.replicate fuel GatewayCall.getInfo =
          calls ++ List.replicate (fuel + 1) GatewayCall.getInfo := by
        simp [List.replicate_succ, List.append_assoc]
      simp only [verifyLoop]
      cases hg : gw.getInfo idx with
      | ok info =>
          have hc : (info.billing_account_name == name && info.billing_enabled) = false := by
            simpa [pollSucceeds, hg] using h0
          simp only [hc, Bool.false_eq_true, if_false]
          rw [ih (idx + 1) (calls ++ [GatewayCall.getInfo]) hrest, hrepl]
      | notFound =>
          rw [ih (idx + 1) (calls ++ [GatewayCall.getInfo]) hrest, hrepl]
      | err m =>
          rw [ih (idx + 1) (calls ++ [GatewayCall.getInfo]) hrest, hrepl]

/-- If the first matching poll is poll `k` (0-indexed within the window),
the loop returns `Linked` there, having recorded exactly `k + 1` polls. -/
theorem verifyLoop_first_success (name : String) :
    ∀ (k fuel idx : ℕ) (calls : List GatewayCall), k < fuel →
      (∀ j, j < k → pollSucceeds gw name (idx + j) = false) →
      pollSucceeds gw name (idx + k) = true →
      verifyLoop gw name idx fuel calls =
        (.outcome .Linked, calls ++ List.replicate (k + 1) GatewayCall.getInfo) := by
  intro k
  induction k with
  | zero =>
      intro fuel idx calls hk _ hsucc
      obtain ⟨fuel', rfl⟩ : ∃ f, fuel = f + 1 := ⟨fuel - 1, by omega⟩
      rw [Nat.add_zero] at hsucc
      simp only [verifyLoop]
      cases hg : gw.getInfo idx with
      | ok info =>
          have hc : (info.billing_account_name == name && info.billing_enabled) = true := by
            simpa [pollSucceeds, hg] using hsucc
          simp [hc, List.replicate_succ]
      | notFound => simp [pollSucceeds, hg] at hsucc
      | err m => simp [pollSucceeds, hg] at hsucc
  | succ k ih =>
      intro fuel idx calls hk hmiss hsucc
      obtain ⟨fuel', rfl⟩ : ∃ f, fuel = f + 1 := ⟨fuel - 1, by omega⟩
      have h0 : pollSucceeds gw name idx = false := by simpa using hmiss 0 (Nat.succ_pos _)
      have hmiss' : ∀ j, j < k → pollSucceeds gw name (idx + 1 + j) = false := by
        intro j hj
        have := hmiss (j + 1) (by omega)
        simpa [Nat.add_assoc, Nat.add_comm 1 j] using this
      have hsucc' : pollSucceeds gw name (idx + 1 + k) = true := by
        simpa [Nat.add_assoc, Nat.add_comm 1 k] using hsucc
      have hrec := ih fuel' (idx + 1) (calls ++ [GatewayCall.getInfo]) (by omega) hmiss' hsucc'
      have hrepl : calls ++ [GatewayCall.getInfo] ++ List.replicate (k + 1) GatewayCall.getInfo =
          calls ++ List.replicate (k + 1 + 1) GatewayCall.getInfo := by
        simp [List.replicate_succ, List.append_assoc]
      simp only [verifyLoop]
      cases hg : gw.getInfo idx with
      | ok info =>
          have hc : (info.billing_account_name == name && info.billing_enabled) = false := by
            simpa [pollSucceeds, hg] using h0
          simp only [hc, Bool.false_eq_true, if_false]
          rw [hrec, hrepl]
      | notFound => rw [hrec, hrepl]
      | err m => rw [hrec, hrepl]

/-- The retry loop makes at most `fuel` attempts, so sleeps at most `fuel`
waits. -/
theorem enableRetryGo_length (results : ℕ → ResolutionOutcome) :
    ∀ (fuel i : ℕ) (wait : ℚ) (waits : List ℚ),
      (enableRetryGo results i fuel wait waits).1.length ≤ waits.length + fuel := by
  intro fuel
  induction fuel with
  | zero => intro i wait waits; simp [enableRetryGo]
  | succ fuel ih =>
      intro i wait waits
      simp only [enableRetryGo]
      by_cases hr : isApiDisabled (results i) = true
      · simp only [hr, if_true]
        have := ih (i + 1) (wait * (3 / 2)) (waits ++ [wait])
        simp only [List.length_append, List.length_cons, List.length_nil] at this
        exact this.trans (by omega)
      · simp only [hr, if_false]
        simp

/-- If attempts `i..i+k-1` all come back `ApiDisabledOrNoPermission` and
attempt `i+k` does not, the loop makes exactly `k + 1` more attempts,
sleeping `wait·(3/2)^j` before the j-th of them, and returns that
attempt's outcome. -/
theorem enableRetryGo_first_exit (results : ℕ → ResolutionOutcome) :
    ∀ (k fuel i : ℕ) (wait : ℚ) (waits : List ℚ), k < fuel →
      (∀ j, j < k → isApiDisabled (results (i + j)) = true) →
      isApiDisabled (results (i + k)) = false →
      enableRetryGo results i fuel wait waits =
        (waits ++ (List.range (k + 1)).map (fun j => wait * (3 / 2) ^ j),
         results (i + k)) := by
  intro k
  induction k with
  | zero =>
      intro fuel i wait waits hk _ hexit
      obtain ⟨fuel', rfl⟩ : ∃ f, fuel = f + 1 := ⟨fuel - 1, by omega⟩
      rw [Nat.add_zero] at hexit
      simp [enableRetryGo, hexit, List.range_succ]
  | succ k ih =>
      intro fuel i wait waits hk hdis hexit
      obtain ⟨fuel', rfl⟩ : ∃ f, fuel = f + 1 := ⟨fuel - 1, by omega⟩
      have h0 : isApiDisabled (results i) = true := by simpa using hdis 0 (Nat.succ_pos _)
      have hdis' : ∀ j, j < k → isApiDisabled (results (i + 1 + j)) = true := by
        intro j hj
        have := hdis (j + 1) (by omega)
        simpa [Nat.add_assoc, Nat.add_comm 1 j] using this
      have hexit' : isApiDisabled (results (i + 1 + k)) = false := by
        simpa [Nat.add_assoc, Nat.add_comm 1 k] using hexit
      have hrec := ih fuel' (i + 1) (wait * (3 / 2)) (waits ++ [wait]) (by omega) hdis' hexit'
      have hmap : (List.range (k + 1 + 1)).map (fun j => wait * (3 / 2 : ℚ) ^ j) =
          wait :: (List.range (k + 1)).map (fun j => wait * (3 / 2) * (3 / 2) ^ j) := by
        rw [List.range_succ_eq_map, List.map_cons, List.map_map]
        refine congrArg₂ _ (by simp) (List.map_congr_left ?_)
        intro j _
        simp only [Function.comp_apply, pow_succ]
        ring
      simp only [enableRetryGo, h0, if_true]
      rw [hrec, hmap]
      simp [Nat.add_assoc, Nat.add_comm 1 k, List.append_assoc]

/-- If every attempt in the budget comes back `ApiDisabledOrNoPermission`,
the loop exhausts the budget, sleeping `wait·(3/2)^j` before attempt `j`,
and the final outcome is still `ApiDisabledOrNoPermission`. -/
theorem enableRetryGo_exhaust (results : ℕ → ResolutionOutcome) :
    ∀ (fuel i : ℕ) (wait : ℚ) (waits : List ℚ),
      (∀ j, j < fuel → isApiDisabled (results (i + j)) = true) →
      enableRetryGo results i fuel wait waits =
        (waits ++ (List.range fuel).map (fun j => wait * (3 / 2) ^ j),
         .ApiDisabledOrNoPermission) := by
  intro fuel
  induction fuel with
  | zero => intro i wait waits _; simp [enableRetryGo]
  | succ fuel ih =>
      intro i wait waits hdis
      have h0 : isApiDisabled (results i) = true := by simpa using hdis 0 (Nat.succ_pos _)
      have hdis' : ∀ j, j < fuel → isApiDisabled (results (i + 1 + j)) = true := by
        intro j hj
        have := hdis (j + 1) (by omega)
        simpa [Nat.add_assoc, Nat.add_comm 1 j] using this
      have hrec := ih (i + 1) (wait * (3 / 2)) (waits ++ [wait]) hdis'
      have hmap : (List.range (fuel + 1)).map (fun j => wait * (3 / 2 : ℚ) ^ j) =
          wait :: (List.range fuel).map (fun j => wait * (3 / 2) * (3 / 2) ^ j) := by
        rw [List.range_succ_eq_map, List.map_cons, List.map_map]
        refine congrArg₂ _ (by simp) (List.map_congr_left ?_)
        intro j _
        simp only [Function.comp_apply, pow_succ]
        ring
      simp only [enableRetryGo, h0, if_true]
      rw [hrec, hmap]
      simp [List.append_assoc]

end Lemmas

/-- C1: `get_billing_accounts` wraps a successful listing as `Accounts`;
classifies a permission-denied failure as `ApiDisabledOrNoPermission`
exactly when the lowercased message contains "api has not been used" or
"service is disabled" (and as `PermissionDenied` otherwise); and maps every
other failure to `UnexpectedError`. -/
theorem C1_account_resolver_classification
    (accounts : List BillingAccount) (message : String) :
    get_billing_accounts (.ok accounts) = .Accounts accounts ∧
    (("api has not been used".toList <:+: message.toList.map Char.toLower ∨
      "service is disabled".toList <:+: message.toList.map Char.toLower) →
      get_billing_accounts (.permissionDenied message) = .ApiDisabledOrNoPermission) ∧
    (¬ ("api has not been used".toList <:+: message.toList.map Char.toLower ∨
        "service is disabled".toList <:+: message.toList.map Char.toLower) →
      get_billing_accounts (.permissionDenied message) = .PermissionDenied) ∧
    get_billing_accounts (.otherError message) = .UnexpectedError := by
  refine ⟨rfl, fun h => ?_, fun h => ?_, rfl⟩
  · simp only [get_billing_accounts]
    exact if_pos h
  · simp only [get_billing_accounts]
    exact if_neg h

/-- Witness for C1: a disabled-API-style message (in mixed case), and a
plain denial, classified concretely. -/
theorem C1_account_resolver_classification_witness :
    get_billing_accounts (.permissionDenied
        "Cloud Billing API has not been used in project 12345 before") =
      .ApiDisabledOrNoPermission ∧
    get_billing_accounts (.permissionDenied "The caller does not have permission") =
      .PermissionDenied :=
  ⟨(C1_account_resolver_classification [] _).2.1 (by decide),
   (C1_account_resolver_classification [] _).2.2.1 (by decide)⟩

/-- C2: after a successful enablement submission the orchestrator retries
account resolution at most 5 times; the wait before the (0-indexed) i-th
attempt is 15·(3/2)^i, i.e. the waits are 15, 45/2, 135/4, 405/8, 1215/16;
and the loop exits at the first attempt whose outcome is not
`ApiDisabledOrNoPermission`, returning that outcome. -/
theorem C2_enable_retry_backoff (results : ℕ → ResolutionOutcome) (k : ℕ) :
    (enableRetry results).1.length ≤ 5 ∧
    (List.range 5).map (fun i => (15 : ℚ) * (3 / 2) ^ i) =
      [15, 45/2, 135/4, 405/8, 1215/16] ∧
    (k < 5 → (∀ j, j < k → isApiDisabled (results j) = true) →
      isApiDisabled (results k) = false →
      enableRetry results =
        ((List.range (k + 1)).map (fun i => (15 : ℚ) * (3 / 2) ^ i), results k)) ∧
    ((∀ j, j < 5 → isApiDisabled (results j) = true) →
      enableRetry results =
        ([15, 45/2, 135/4, 405/8, 1215/16], .ApiDisabledOrNoPermission)) := by
  refine ⟨?_, ?_, fun hk hdis hexit => ?_, fun hdis => ?_⟩
  · simpa using enableRetryGo_length results 5 0 15 []
  · norm_num [List.range_succ]
  · have h := enableRetryGo_first_exit results k 5 0 15 [] hk
      (by simpa using hdis) (by simpa using hexit)
    simpa [enableRetry] using h
  · rw [enableRetry, enableRetryGo_exhaust results 5 0 15 [] (by simpa using hdis)]
    norm_num [List.range_succ]

/-- Witness for C2: attempts 0 and 1 still report the disabled-API
ambiguity, attempt 2 exits the loop with a hard denial after waits
15 and 45/2 and 135/4. -/
theorem C2_enable_retry_backoff_witness :
    enableRetry (fun i => if i = 2 then ResolutionOutcome.PermissionDenied
        else .ApiDisabledOrNoPermission) =
      ((List.range 3).map (fun i => (15 : ℚ) * (3 / 2) ^ i), .PermissionDenied) :=
  (C2_enable_retry_backoff _ 2).2.2.1 (by norm_num) (by decide) (by decide)

/-- C5: on the empty project identifier, `link_project_to_billing` returns
the invalid-input failure immediately and its gateway-call trace is empty. -/
theorem C5_empty_project_no_calls (gw : Gateway) (acct : BillingAccount) :
    link_project_to_billing gw "" acct = (.outcome .LinkRequestFailed, []) := by
  simp [link_project_to_billing]

/-- C7: the orchestrator's account selection reports no accounts on the
empty list, reports no open accounts when the list is non-empty but the
open-filter is empty, and otherwise picks the first open account in
gateway order (which is open and belongs to the list); concretely, for
[A closed, B open] it picks B. -/
theorem C7_select_account (accounts rest : List BillingAccount) (a : BillingAccount) :
    selectAccount [] = .noAccountsFound ∧
    (accounts ≠ [] → accounts.filter (fun acc => acc.«open») = [] →
      selectAccount accounts = .noOpenAccounts) ∧
    (accounts.filter (fun acc => acc.«open») = a :: rest →
      selectAccount accounts = .selected a ∧ a.«open» = true ∧ a ∈ accounts) ∧
    selectAccount [⟨"A", "A", false⟩, ⟨"B", "B", true⟩] =
      .selected ⟨"B", "B", true⟩ := by
  refine ⟨rfl, fun hne hf => ?_, fun hf => ?_, by decide⟩
  · simp [selectAccount, hne, hf]
  · have hne : accounts ≠ [] := by
      intro e
      subst e
      simp at hf
    have hmem : a ∈ accounts.filter (fun acc => acc.«open») := by
      rw [hf]; exact List.mem_cons_self _ _
    exact ⟨by simp [selectAccount, hne, hf], (List.mem_filter.mp hmem).2,
      (List.mem_filter.mp hmem).1⟩

/-- Witness for C7: a singleton closed-account list yields the
no-open-accounts terminal, and [A closed, B open] selects B. -/
theorem C7_select_account_witness :
    selectAccount [⟨"A", "A", false⟩] = .noOpenAccounts ∧
    selectAccount [⟨"A", "A", false⟩, ⟨"B", "B", true⟩] =
      .selected ⟨"B", "B", true⟩ :=
  ⟨(C7_select_account [⟨"A", "A", false⟩] [] ⟨"B", "B", true⟩).2.1
      (by decide) (by decide),
   ((C7_select_account [⟨"A", "A", false⟩, ⟨"B", "B", true⟩] []
      ⟨"B", "B", true⟩).2.2.1 (by decide)).1⟩

/-- C3: the verification loop records at most 6 polls on top of the calls
already traced; and when the first matching poll is attempt k+1 (k < 6,
attempts numbered from 1), the run returns `Linked` having made exactly
k+1 verification polls — trace: initial fetch, update, then k+1 polls. -/
theorem C3_verification_stops_at_first_match (gw : Gateway) (p : String)
    (acct : BillingAccount) (k : ℕ) (calls : List GatewayCall) :
    (verifyLoop gw acct.name 1 6 calls).2.count GatewayCall.getInfo ≤
      calls.count GatewayCall.getInfo + 6 ∧
    (p ≠ "" → gw.getInfo 0 = .notFound → gw.updateResult = .ok →
      k < 6 → (∀ j, j < k → pollSucceeds gw acct.name (1 + j) = false) →
      pollSucceeds gw acct.name (1 + k) = true →
      link_project_to_billing gw p acct =
        (.outcome .Linked,
         [GatewayCall.getInfo, GatewayCall.updateInfo] ++
           List.replicate (k + 1) GatewayCall.getInfo)) := by
  refine ⟨verifyLoop_count_getInfo gw acct.name 6 1 calls,
    fun hp h0 hu hk hmiss hsucc => ?_⟩
  have hv := verifyLoop_first_success gw acct.name k 6 1
    [GatewayCall.getInfo, GatewayCall.updateInfo] hk hmiss hsucc
  simpa [link_project_to_billing, hp, h0, hu] using hv

/-- Witness for C3: polls 1 and 2 miss (a stale read, then a transient
error), poll 3 matches — exactly 3 polls occur, not 6. -/
theorem C3_verification_stops_at_first_match_witness :
    link_project_to_billing gwThird "proj" acctX =
      (.outcome .Linked,
       [GatewayCall.getInfo, GatewayCall.updateInfo] ++
         List.replicate 3 GatewayCall.getInfo) :=
  (C3_verification_stops_at_first_match gwThird "proj" acctX 2 []).2
    (by decide) (by decide) (by decide) (by decide) (by decide) (by decide)

/-- C4: against a project already linked to the target account, two
consecutive invocations both return `AlreadyLinked`, and neither — in
particular not the second — issues any update request.  The first run
issues zero updates, so the remote link state is unchanged for the second
run, which therefore sees the same gateway behaviour. -/
theorem C4_link_idempotent (gw : Gateway) (p : String) (acct : BillingAccount)
    (st : LinkState) (hp : p ≠ "") (h0 : gw.getInfo 0 = .ok st)
    (hname : st.billing_account_name = acct.name) :
    (link_twice gw p acct).1 = (.outcome .AlreadyLinked, [GatewayCall.getInfo]) ∧
    (link_twice gw p acct).2 = (.outcome .AlreadyLinked, [GatewayCall.getInfo]) ∧
    (link_twice gw p acct).1.2.count GatewayCall.updateInfo = 0 ∧
    (link_twice gw p acct).2.2.count GatewayCall.updateInfo = 0 := by
  have h1 : link_project_to_billing gw p acct =
      (.outcome .AlreadyLinked, [GatewayCall.getInfo]) := by
    simp [link_project_to_billing, hp, h0, hname]
  exact ⟨by simp [link_twice, h1], by simp [link_twice, h1],
    by simp [link_twice, h1], by simp [link_twice, h1]⟩

/-- Witness for C4: a project already linked to the target account. -/
theorem C4_link_idempotent_witness :
    (link_twice gwAlready "proj" acctX).1 =
      (.outcome .AlreadyLinked, [GatewayCall.getInfo]) ∧
    (link_twice gwAlready "proj" acctX).2.2.count GatewayCall.updateInfo = 0 :=
  ⟨(C4_link_idempotent gwAlready "proj" acctX
      ⟨"billingAccounts/0A0A0A", false⟩ (by decide) (by decide) (by decide)).1,
   (C4_link_idempotent gwAlready "proj" acctX
      ⟨"billingAccounts/0A0A0A", false⟩ (by decide) (by decide) (by decide)).2.2.2⟩

/-- C8: when the initial fetch reports not-found, the run treats the
project as unlinked and proceeds to issue the update request, ending at a
return point rather than a failure short-circuit. -/
theorem C8_not_found_proceeds (gw : Gateway) (p : String) (acct : BillingAccount)
    (hp : p ≠ "") (h0 : gw.getInfo 0 = .notFound) :
    GatewayCall.updateInfo ∈ (link_project_to_billing gw p acct).2 ∧
    ∃ o, (link_project_to_billing gw p acct).1 = .outcome o := by
  cases hu : gw.updateResult with
  | ok =>
      have hmem := verifyLoop_mem_calls gw acct.name GatewayCall.updateInfo 6 1
        [GatewayCall.getInfo, GatewayCall.updateInfo] (by simp)
      have hout := verifyLoop_returns_outcome gw acct.name 6 1
        [GatewayCall.getInfo, GatewayCall.updateInfo]
      exact ⟨by simpa [link_project_to_billing, hp, h0, hu] using hmem,
        by simpa [link_project_to_billing, hp, h0, hu] using hout⟩
  | permissionDenied m =>
      exact ⟨by simp [link_project_to_billing, hp, h0, hu],
        ⟨.LinkRequestFailed, by simp [link_project_to_billing, hp, h0, hu]⟩⟩
  | err m =>
      exact ⟨by simp [link_project_to_billing, hp, h0, hu],
        ⟨.LinkRequestFailed, by simp [link_project_to_billing, hp, h0, hu]⟩⟩

/-- Witness for C8: an unlinked project (initial fetch NotFound) leads to
an update request being issued. -/
theorem C8_not_found_proceeds_witness :
    GatewayCall.updateInfo ∈ (link_project_to_billing gwThird "proj" acctX).2 ∧
    ∃ o, (link_project_to_billing gwThird "proj" acctX).1 = .outcome o :=
  C8_not_found_proceeds gwThird "proj" acctX (by decide) (by decide)

/-- C9: a fetch error during verification is swallowed — it counts as a
non-matching attempt and the loop continues; and when none of the 6
verification polls satisfies the success condition, the run returns
`VerificationTimedOut` after exactly 6 polls. -/
theorem C9_verification_errors_swallowed (gw : Gateway) (p : String)
    (acct : BillingAccount) (i : ℕ) (m : String) :
    (gw.getInfo i = .err m → pollSucceeds gw acct.name i = false) ∧
    (p ≠ "" → gw.getInfo 0 = .notFound → gw.updateResult = .ok →
      (∀ j, j < 6 → pollSucceeds gw acct.name (1 + j) = false) →
      link_project_to_billing gw p acct =
        (.outcome .VerificationTimedOut,
         [GatewayCall.getInfo, GatewayCall.updateInfo] ++
           List.replicate 6 GatewayCall.getInfo)) := by
  refine ⟨fun he => by simp [pollSucceeds, he], fun hp h0 hu hmiss => ?_⟩
  have hv := verifyLoop_timeout gw acct.name 6 1
    [GatewayCall.getInfo, GatewayCall.updateInfo] hmiss
  simpa [link_project_to_billing, hp, h0, hu] using hv

/-- Witness for C9: all 6 verification polls fail with transient errors;
the run still makes all 6 polls and ends with the timed-out warning. -/
theorem C9_verification_errors_swallowed_witness :
    link_project_to_billing gwAllErr "proj" acctX =
      (.outcome .VerificationTimedOut,
       [GatewayCall.getInfo, GatewayCall.updateInfo] ++
         List.replicate 6 GatewayCall.getInfo) :=
  (C9_verification_errors_swallowed gwAllErr "proj" acctX 1 "transient").2
    (by decide) (by decide) (by decide) (by decide)

/-- C10: the AlreadyLinked short-circuit compares only the account
identifier — a fetched state carrying the target's identifier but with
billing_enabled false still yields `AlreadyLinked` and no update request —
whereas the verification success condition additionally requires
billing_enabled, so the same state never satisfies a verification poll. -/
theorem C10_short_circuit_ignores_enabled (gw gw' : Gateway) (p : String)
    (acct : BillingAccount) (st : LinkState) (i : ℕ)
    (hp : p ≠ "") (h0 : gw.getInfo 0 = .ok st)
    (hname : st.billing_account_name = acct.name)
    (hdis : st.billing_enabled = false) :
    link_project_to_billing gw p acct =
      (.outcome .AlreadyLinked, [GatewayCall.getInfo]) ∧
    (gw'.getInfo i = .ok st → pollSucceeds gw' acct.name i = false) := by
  constructor
  · simp [link_project_to_billing, hp, h0, hname]
  · intro h
    simp [pollSucceeds, h, hdis]

/-- Witness for C10: the fetched state names the target account but has
billing disabled; the run still short-circuits to AlreadyLinked, while
that very state fails the verification success condition. -/
theorem C10_short_circuit_ignores_enabled_witness :
    link_project_to_billing gwAlready "proj" acctX =
      (.outcome .AlreadyLinked, [GatewayCall.getInfo]) ∧
    pollSucceeds gwAlready acctX.name 1 = false :=
  ⟨(C10_short_circuit_ignores_enabled gwAlready gwAlready "proj" acctX
      ⟨"billingAccounts/0A0A0A", false⟩ 1
      (by decide) (by decide) (by decide) (by decide)).1,
   (C10_short_circuit_ignores_enabled gwAlready gwAlready "proj" acctX
      ⟨"billingAccounts/0A0A0A", false⟩ 1
      (by decide) (by decide) (by decide) (by decide)).2 (by decide)⟩

/-- C6 counterexample: with a gateway whose initial `get_project_billing_info`
call fails with an error other than not-found, `link_project_to_billing`
does not return any of the four `LinkOutcome` values — the exception
escapes the function (its `try` there catches only `NotFound`). -/
theorem C6_exception_escapes_counterexample :
    (link_project_to_billing gwFetchErr "proj" acctX).1 =
      LinkResult.escaped "boom" ∧
    LinkResult.escaped "boom" ≠ .outcome .AlreadyLinked ∧
    LinkResult.escaped "boom" ≠ .outcome .Linked ∧
    LinkResult.escaped "boom" ≠ .outcome .LinkRequestFailed ∧
    LinkResult.escaped "boom" ≠ .outcome .VerificationTimedOut := by
  refine ⟨?_, by decide, by decide, by decide, by decide⟩
  simp [link_project_to_billing, gwFetchErr]

/-- C6 amended: `link_project_to_billing` ends at one of its return points
for every gateway behaviour except when the project id is non-empty and
the initial fetch fails with a non-NotFound error, in which case exactly
that exception escapes.  (Account Resolver and Enablement Trigger are
total over their modelled gateway responses by construction.) -/
theorem C6_no_escape_except_initial_fetch (gw : Gateway) (p : String)
    (acct : BillingAccount) :
    ((p = "" ∨ ∀ m, gw.getInfo 0 ≠ .err m) →
      ∃ o, (link_project_to_billing gw p acct).1 = .outcome o) ∧
    (∀ m, p ≠ "" → gw.getInfo 0 = .err m →
      (link_project_to_billing gw p acct).1 = .escaped m) := by
  constructor
  · intro h
    by_cases hp : p = ""
    · exact ⟨.LinkRequestFailed, by simp [link_project_to_billing, hp]⟩
    have hne : ∀ m, gw.getInfo 0 ≠ .err m := h.resolve_left hp
    cases h0 : gw.getInfo 0 with
    | ok st =>
        by_cases hn : (st.billing_account_name == acct.name) = true
        · exact ⟨.AlreadyLinked, by simp [link_project_to_billing, hp, h0, hn]⟩
        cases hu : gw.updateResult with
        | ok =>
            obtain ⟨o, ho⟩ := verifyLoop_returns_outcome gw acct.name 6 1
              [GatewayCall.getInfo, GatewayCall.updateInfo]
            exact ⟨o, by simpa [link_project_to_billing, hp, h0, hn, hu] using ho⟩
        | permissionDenied m =>
            exact ⟨.LinkRequestFailed, by simp [link_project_to_billing, hp, h0, hn, hu]⟩
        | err m =>
            exact ⟨.LinkRequestFailed, by simp [link_project_to_billing, hp, h0, hn, hu]⟩
    | notFound =>
        cases hu : gw.updateResult with
        | ok =>
            obtain ⟨o, ho⟩ := verifyLoop_returns_outcome gw acct.name 6 1
              [GatewayCall.getInfo, GatewayCall.updateInfo]
            exact ⟨o, by simpa [link_project_to_billing, hp, h0, hu] using ho⟩
        | permissionDenied m =>
            exact ⟨.LinkRequestFailed, by simp [link_project_to_billing, hp, h0, hu]⟩
        | err m =>
            exact ⟨.LinkRequestFailed, by simp [link_project_to_billing, hp, h0, hu]⟩
    | err m => exact absurd h0 (hne m)
  · intro m hp h0
    simp [link_project_to_billing, hp, h0]

/-- Witness for C6 amended: a benign gateway run ends at a return point;
the escaping case concretely escapes with the underlying message. -/
theorem C6_no_escape_except_initial_fetch_witness :
    (∃ o, (link_project_to_billing gwAlready "proj" acctX).1 = .outcome o) ∧
    (link_project_to_billing gwFetchErr "proj" acctX).1 =
      LinkResult.escaped "boom" :=
  ⟨(C6_no_escape_except_initial_fetch gwAlready "proj" acctX).1
      (Or.inr (by intro m h; simp [gwAlready] at h)),
   (C6_no_escape_except_initial_fetch gwFetchErr "proj" acctX).2 "boom"
      (by decide) (by simp [gwFetchErr])⟩

end BillingEnablement
